import Mathlib

/-!
Verification of `examples/sinkhorn_1D/plot_1d_mat.py` (function `plot1D_mat`).

The source is a single visualization helper that draws a matrix heatmap with
its two marginal distributions into the plotting backend's current figure.
The function itself is embedded line by line from the Python source.  The
plotting backend (matplotlib) is not part of this repository; its primitives
are modelled from the spec's description of the external collaborator
(grid-based subplot layout, line-plot rendering, image rendering, axis
inversion, tick-label suppression, shared-axis linking, spacing control) as
explicit operations on a figure state.  Machine-level floats are modelled as
rationals; no arithmetic is performed on the data values, they are only
stored in the figure state.
-/

namespace PlotOneDMat

/-- Value type for the plotted data.  The source stores the numbers without
performing arithmetic on them, so rationals stand in for floats. -/
abbrev Val := ℚ

/-- A 2D numpy array: a list of rows.  numpy arrays are rectangular; the
shape is read off as (row count, length of the first row). -/
structure NDArray2 where
  data : List (List Val)
deriving DecidableEq, Repr

/-- Shape of a 2D array, as `M.shape` returns it: (rows, cols). -/
def NDArray2.shape (M : NDArray2) : Nat × Nat :=
  (M.data.length, (M.data.headD []).length)

/-- Rectangularity: every row has the column count.  numpy guarantees this
for a well-formed 2D array. -/
def NDArray2.Rectangular (M : NDArray2) : Prop :=
  ∀ r ∈ M.data, r.length = M.shape.2

/-- Modelled from the spec: `np.arange(n)` is the sequence 0, 1, ..., n-1. -/
def arange (n : Nat) : List Val :=
  List.map Nat.cast (List.range n)

/-- Modelled from the spec: a shared axis object of the backend, carrying the
state the spec's contract talks about: its orientation (inverted or not) and
its declared limits.  Distinct plot regions that share an axis hold the same
axis object. -/
structure AxisObj where
  inverted : Bool := false
  lim : Option (Val × Val) := none
deriving DecidableEq, Repr, Inhabited

/-- A span of cells in a subplot grid: `gs[r0..r1, c0..c1]` of an
`nrows × ncols` GridSpec (bounds inclusive). -/
structure GridPos where
  nrows : Nat
  ncols : Nat
  rowLo : Nat
  rowHi : Nat
  colLo : Nat
  colHi : Nat
deriving DecidableEq, Repr, Inhabited

/-- One recorded `plot(xs, ys, fmt, label)` command on an axes. -/
structure PlotCmd where
  xs : List Val
  ys : List Val
  fmt : String
  label : String
deriving DecidableEq, Repr, Inhabited

/-- One recorded `imshow(data, interpolation)` command on an axes. -/
structure ImageCmd where
  data : List (List Val)
  interp : String
deriving DecidableEq, Repr, Inhabited

/-- Modelled from the spec: a sub-region (matplotlib Axes) of the figure.
It occupies a grid span and refers to its x- and y-axis objects by id;
two regions share an axis exactly when they hold the same id. -/
structure Axes where
  pos : GridPos
  xAxisId : Nat
  yAxisId : Nat
  plots : List PlotCmd := []
  images : List ImageCmd := []
  title : String := ""
  xticks : Option (List Val) := none
  yticks : Option (List Val) := none
  axisOff : Bool := false
deriving DecidableEq, Repr

instance : Inhabited Axes :=
  ⟨{ pos := default, xAxisId := 0, yAxisId := 0 }⟩

/-- Modelled from the spec: the backend's current-figure state.  Axis objects
live in per-dimension stores indexed by id, so that regions created with
`sharex`/`sharey` literally hold the same object. -/
structure Fig where
  axesList : List Axes := []
  xAxisObjs : List AxisObj := []
  yAxisObjs : List AxisObj := []
  current : Option Nat := none
  tightLayout : Bool := false
  wspace : Option Val := none
  hspace : Option Val := none
deriving DecidableEq, Repr

/-- A fresh figure with nothing drawn into it. -/
def Fig.empty : Fig := {}

/-- The backend error a line plot raises when the x and y data disagree in
length (matplotlib's ValueError about mismatched first dimensions).  This is
the only error the modelled backend produces on the calls `plot1D_mat`
makes. -/
inductive Err where
  | valueError (xlen ylen : Nat)
deriving DecidableEq, Repr

/-- The Python value `None`, which a Python function without a `return`
statement returns. -/
inductive PyNone where
  | mk
deriving DecidableEq, Repr

/-- Replace the element at index `i` by `f` of it; out-of-range indices leave
the list unchanged. -/
def listModify (f : α → α) : Nat → List α → List α
  | _, [] => []
  | 0, x :: xs => f x :: xs
  | n + 1, x :: xs => x :: listModify f n xs

/-- The current axes of the figure (`pl.gca()`), if any. -/
def Fig.currentAxes (st : Fig) : Option Axes :=
  st.current.bind (fun i => st.axesList.get? i)

/-- Apply `f` to the current axes, if any. -/
def Fig.modifyCurrent (f : Axes → Axes) (st : Fig) : Fig :=
  match st.current with
  | none => st
  | some i => { st with axesList := listModify f i st.axesList }

/-- Resolve one axis dimension of a new subplot: reuse the axis object of the
shared axes when a `sharex=`/`sharey=` handle is given, otherwise allocate a
fresh axis object. -/
def resolveAxis (share : Option Nat) (getId : Axes → Nat)
    (objs : List AxisObj) (axesList : List Axes) : Nat × List AxisObj :=
  match share with
  | some i =>
    match axesList.get? i with
    | some ax => (getId ax, objs)
    | none => (objs.length, objs ++ [{}])
  | none => (objs.length, objs ++ [{}])

/-- Modelled from the spec: `pl.subplot(spec, sharex=, sharey=)`.  Creates a
new sub-region on the given grid span, linking its axes to those of the
given existing regions (passed as indices into the axes list), makes it
current, and returns its handle. -/
def subplot (pos : GridPos) (sharex sharey : Option Nat) (st : Fig) :
    Fig × Nat :=
  let rx := resolveAxis sharex Axes.xAxisId st.xAxisObjs st.axesList
  let ry := resolveAxis sharey Axes.yAxisId st.yAxisObjs st.axesList
  let ax : Axes := { pos := pos, xAxisId := rx.1, yAxisId := ry.1 }
  let idx := st.axesList.length
  ({ st with
      axesList := st.axesList ++ [ax]
      xAxisObjs := rx.2
      yAxisObjs := ry.2
      current := some idx }, idx)

/-- Modelled from the spec: `pl.plot(xs, ys, fmt, label=)`.  Records a line
plot on the current axes; raises the backend's ValueError when the x and y
data lengths disagree, leaving the figure unchanged. -/
def mplPlot (xs ys : List Val) (fmt lbl : String) (st : Fig) :
    Fig × Option Err :=
  if xs.length = ys.length then
    (st.modifyCurrent
      (fun ax => { ax with plots := ax.plots ++ [⟨xs, ys, fmt, lbl⟩] }), none)
  else
    (st, some (Err.valueError xs.length ys.length))

/-- Modelled from the spec: `pl.yticks(())` suppresses the y tick labels of
the current axes by declaring an empty tick list. -/
def yticksEmpty (st : Fig) : Fig :=
  st.modifyCurrent (fun ax => { ax with yticks := some [] })

/-- Modelled from the spec: `pl.xticks(())` suppresses the x tick labels of
the current axes by declaring an empty tick list. -/
def xticksEmpty (st : Fig) : Fig :=
  st.modifyCurrent (fun ax => { ax with xticks := some [] })

/-- Modelled from the spec: `pl.title(t)` sets the title of the current
axes. -/
def setTitle (t : String) (st : Fig) : Fig :=
  st.modifyCurrent (fun ax => { ax with title := t })

/-- Modify the x-axis object of the current axes (a no-op on an empty
figure). -/
def modifyCurrentXAxis (f : AxisObj → AxisObj) (st : Fig) : Fig :=
  match st.currentAxes with
  | none => st
  | some ax => { st with xAxisObjs := listModify f ax.xAxisId st.xAxisObjs }

/-- Modify the y-axis object of the current axes (a no-op on an empty
figure). -/
def modifyCurrentYAxis (f : AxisObj → AxisObj) (st : Fig) : Fig :=
  match st.currentAxes with
  | none => st
  | some ax => { st with yAxisObjs := listModify f ax.yAxisId st.yAxisObjs }

/-- Modelled from the spec: `invert_xaxis()` flips the orientation of the
current axes' x-axis object (shared by every region linked to it). -/
def invertXAxis (st : Fig) : Fig :=
  modifyCurrentXAxis (fun o => { o with inverted := !o.inverted }) st

/-- Modelled from the spec: `invert_yaxis()` flips the orientation of the
current axes' y-axis object (shared by every region linked to it). -/
def invertYAxis (st : Fig) : Fig :=
  modifyCurrentYAxis (fun o => { o with inverted := !o.inverted }) st

/-- Modelled from the spec: `pl.imshow(data, interpolation=)` records an
image on the current axes. -/
def imshow (data : List (List Val)) (interp : String) (st : Fig) : Fig :=
  st.modifyCurrent (fun ax => { ax with images := ax.images ++ [⟨data, interp⟩] })

/-- Modelled from the spec: `pl.axis('off')` hides all axis decorations of
the current axes. -/
def axisOffCmd (st : Fig) : Fig :=
  st.modifyCurrent (fun ax => { ax with axisOff := true })

/-- Modelled from the spec: `pl.xlim((lo, hi))` declares the x-axis limits of
the current axes' x-axis object. -/
def xlimSet (p : Val × Val) (st : Fig) : Fig :=
  modifyCurrentXAxis (fun o => { o with lim := some p }) st

/-- Modelled from the spec: `pl.tight_layout()` applies automatic spacing. -/
def tightLayoutCmd (st : Fig) : Fig :=
  { st with tightLayout := true }

/-- Modelled from the spec: `pl.subplots_adjust(wspace=, hspace=)` forces the
inter-subplot gaps. -/
def subplotsAdjust (w h : Val) (st : Fig) : Fig :=
  { st with wspace := some w, hspace := some h }

/-- The read-only inputs of one call, as the caller's memory holds them:
source distribution `a`, target distribution `b`, matrix `M` and the title
string. -/
structure Mem where
  a : List Val
  b : List Val
  M : NDArray2
  title : String
deriving DecidableEq, Repr

/-- The outcome of one call: the caller's memory after the call, the
backend's figure state after the call (also on failure, since the backend
state is global and survives a raised exception), the exception if one was
raised, and the Python return value. -/
structure CallResult where
  mem : Mem
  fig : Fig
  err : Option Err
  ret : PyNone
deriving DecidableEq, Repr

/-- Line 24 of the source, `na, nb = M.shape`: the dimensions the function
works with.  The binding happens with `a` and `b` in scope, so the embedding
exposes it as a function of all three arguments to make the independence
from `a` and `b` a statable fact; the source reads only `M.shape`. -/
def plot1D_matDims (a b : List Val) (M : NDArray2) : Nat × Nat :=
  let _ := a
  let _ := b
  M.shape

/-- The function `plot1D_mat(a, b, M, title='')`, embedded line by line from
`src/examples/sinkhorn_1D/plot_1d_mat.py`, run against the backend state
`st0`.  A raised backend error aborts the remaining drawing calls and is
surfaced in the result together with the figure state drawn so far. -/
def plot1D_mat (mem : Mem) (st0 : Fig) : CallResult :=
  let a := mem.a
  let b := mem.b
  let M := mem.M
  let title := mem.title
  let dims := plot1D_matDims a b M
  let na := dims.1
  let nb := dims.2
  -- gs = gridspec.GridSpec(3, 3)
  let xa := arange na
  let xb := arange nb
  -- ax1 = pl.subplot(gs[0, 1:])
  let s1 := subplot ⟨3, 3, 0, 0, 1, 2⟩ none none st0
  let ax1 := s1.2
  -- pl.plot(xb, b, 'r', label='Target distribution')
  match mplPlot xb b "r" "Target distribution" s1.1 with
  | (st2, some e) => ⟨mem, st2, some e, PyNone.mk⟩
  | (st2, none) =>
    -- pl.yticks(()); pl.title(title)
    let st3 := yticksEmpty st2
    let st4 := setTitle title st3
    -- ax2 = pl.subplot(gs[1:, 0])
    let s5 := subplot ⟨3, 3, 1, 2, 0, 0⟩ none none st4
    let ax2 := s5.2
    -- pl.plot(a, xa, 'b', label='Source distribution')
    match mplPlot a xa "b" "Source distribution" s5.1 with
    | (st6, some e) => ⟨mem, st6, some e, PyNone.mk⟩
    | (st6, none) =>
      -- pl.gca().invert_xaxis(); pl.gca().invert_yaxis(); pl.xticks(())
      let st7 := invertXAxis st6
      let st8 := invertYAxis st7
      let st9 := xticksEmpty st8
      -- pl.subplot(gs[1:, 1:], sharex=ax1, sharey=ax2)
      let s10 := subplot ⟨3, 3, 1, 2, 1, 2⟩ (some ax1) (some ax2) st9
      -- pl.imshow(M, interpolation='nearest'); pl.axis('off')
      let st11 := imshow M.data "nearest" s10.1
      let st12 := axisOffCmd st11
      -- pl.xlim((0, nb)); pl.tight_layout(); pl.subplots_adjust(...)
      let st13 := xlimSet ((0 : Val), (nb : Val)) st12
      let st14 := tightLayoutCmd st13
      let st15 := subplotsAdjust 0 (1 / 5 : Val) st14
      ⟨mem, st15, none, PyNone.mk⟩

/-- The axes at index `i` of the figure (out of range gives the default). -/
def Fig.axesAt (st : Fig) (i : Nat) : Axes :=
  (st.axesList.get? i).getD default

/-- The x-axis object with id `i` (out of range gives the default). -/
def Fig.axisX (st : Fig) (i : Nat) : AxisObj :=
  (st.xAxisObjs.get? i).getD default

/-- The y-axis object with id `i` (out of range gives the default). -/
def Fig.axisY (st : Fig) (i : Nat) : AxisObj :=
  (st.yAxisObjs.get? i).getD default

/-- The figure state a successful call leaves behind when run on a fresh
figure, written out in closed form. -/
def runFig (mem : Mem) : Fig :=
  let na := mem.M.shape.1
  let nb := mem.M.shape.2
  { axesList := [
      { pos := ⟨3, 3, 0, 0, 1, 2⟩, xAxisId := 0, yAxisId := 0,
        plots := [⟨arange nb, mem.b, "r", "Target distribution"⟩],
        yticks := some [], title := mem.title },
      { pos := ⟨3, 3, 1, 2, 0, 0⟩, xAxisId := 1, yAxisId := 1,
        plots := [⟨mem.a, arange na, "b", "Source distribution"⟩],
        xticks := some [] },
      { pos := ⟨3, 3, 1, 2, 1, 2⟩, xAxisId := 0, yAxisId := 1,
        images := [⟨mem.M.data, "nearest"⟩], axisOff := true }],
    xAxisObjs := [{ lim := some (0, (nb : Val)) }, { inverted := true }],
    yAxisObjs := [{}, { inverted := true }],
    current := some 2,
    tightLayout := true,
    wspace := some 0,
    hspace := some (1 / 5) }

/-- The concrete scenario of the spec: `a = [0.1, 0.2, 0.7]`,
`b = [0.5, 0.5]`, `M = [[0.1,0.0],[0.1,0.1],[0.3,0.4]]`, `title = "demo"`,
so that na = 3 and nb = 2. -/
def demoMem : Mem :=
  { a := [1 / 10, 2 / 10, 7 / 10]
    b := [1 / 2, 1 / 2]
    M := ⟨[[1 / 10, 0], [1 / 10, 1 / 10], [3 / 10, 4 / 10]]⟩
    title := "demo" }

@[simp] theorem arange_length (n : Nat) : (arange n).length = n := by
  unfold arange
  rw [List.length_map, List.length_range]

/-- On matching shapes, a call on a fresh figure succeeds and produces
exactly the figure `runFig` describes, leaving the memory untouched. -/
theorem plot1D_mat_run (mem : Mem)
    (ha : mem.a.length = mem.M.shape.1) (hb : mem.b.length = mem.M.shape.2) :
    plot1D_mat mem Fig.empty = ⟨mem, runFig mem, none, PyNone.mk⟩ := by
  simp [plot1D_mat, plot1D_matDims, subplot, resolveAxis, mplPlot,
    yticksEmpty, xticksEmpty, setTitle, invertXAxis, invertYAxis,
    modifyCurrentXAxis, modifyCurrentYAxis, Fig.currentAxes,
    Fig.modifyCurrent, imshow, axisOffCmd, xlimSet, tightLayoutCmd,
    subplotsAdjust, listModify, Fig.empty, runFig, ha, hb]

/-- C1: for every call to `plot1D_mat` with source of length na, target of
length nb, and matrix of shape (na, nb) with na, nb ≥ 1, the call completes
without raising any error. -/
theorem plot1D_mat_completes (mem : Mem) (na nb : Nat)
    (hsh : mem.M.shape = (na, nb)) (h1 : 1 ≤ na) (h2 : 1 ≤ nb)
    (ha : mem.a.length = na) (hb : mem.b.length = nb) :
    (plot1D_mat mem Fig.empty).err = none := by
  rw [plot1D_mat_run mem (by rw [hsh]; exact ha) (by rw [hsh]; exact hb)]

/-- Witness for C1 at the spec's demo scenario (na = 3, nb = 2). -/
theorem plot1D_mat_completes_witness :
    (demoMem.M.shape = (3, 2) ∧ 1 ≤ 3 ∧ 1 ≤ 2 ∧
      demoMem.a.length = 3 ∧ demoMem.b.length = 2) ∧
    (plot1D_mat demoMem Fig.empty).err = none :=
  ⟨⟨rfl, by decide, by decide, rfl, rfl⟩,
    plot1D_mat_completes demoMem 3 2 rfl (by decide) (by decide) rfl rfl⟩

/-- C2: the dimension binding of `plot1D_mat` (line `na, nb = M.shape`,
exposed as `plot1D_matDims`, which the body of `plot1D_mat` uses for every
dimension-derived value) reads only the matrix's shape: it equals `M.shape`
and is invariant under replacing the source and target vectors by any
others, so the lengths of `a` and `b` are never consulted. -/
theorem plot1D_matDims_from_shape (a a' b b' : List Val) (M : NDArray2) :
    plot1D_matDims a b M = M.shape ∧
    plot1D_matDims a b M = plot1D_matDims a' b' M :=
  ⟨rfl, rfl⟩

/-- C3: after a successful call, the center heatmap (axes 2) holds the same
x-axis object as the top marginal (axes 0) and the same y-axis object as the
left marginal (axes 1). -/
theorem plot1D_mat_shared_axes (mem : Mem)
    (ha : mem.a.length = mem.M.shape.1) (hb : mem.b.length = mem.M.shape.2) :
    ((plot1D_mat mem Fig.empty).fig.axesAt 2).xAxisId =
      ((plot1D_mat mem Fig.empty).fig.axesAt 0).xAxisId ∧
    ((plot1D_mat mem Fig.empty).fig.axesAt 2).yAxisId =
      ((plot1D_mat mem Fig.empty).fig.axesAt 1).yAxisId := by
  rw [plot1D_mat_run mem ha hb]
  exact ⟨rfl, rfl⟩

/-- Witness for C3 at the spec's demo scenario. -/
theorem plot1D_mat_shared_axes_witness :
    (demoMem.a.length = demoMem.M.shape.1 ∧
      demoMem.b.length = demoMem.M.shape.2) ∧
    (((plot1D_mat demoMem Fig.empty).fig.axesAt 2).xAxisId =
        ((plot1D_mat demoMem Fig.empty).fig.axesAt 0).xAxisId ∧
      ((plot1D_mat demoMem Fig.empty).fig.axesAt 2).yAxisId =
        ((plot1D_mat demoMem Fig.empty).fig.axesAt 1).yAxisId) :=
  ⟨⟨rfl, rfl⟩, plot1D_mat_shared_axes demoMem rfl rfl⟩

/-- C4: after every successful call with a matrix of nb columns (nb ≥ 1),
the declared limit of the center heatmap's x-axis object equals exactly
[0, nb]. -/
theorem plot1D_mat_heatmap_xlim (mem : Mem) (na nb : Nat)
    (hsh : mem.M.shape = (na, nb)) (h2 : 1 ≤ nb)
    (ha : mem.a.length = na) (hb : mem.b.length = nb) :
    ((plot1D_mat mem Fig.empty).fig.axisX
      (((plot1D_mat mem Fig.empty).fig.axesAt 2).xAxisId)).lim =
      some (0, (nb : Val)) := by
  rw [plot1D_mat_run mem (by rw [hsh]; exact ha) (by rw [hsh]; exact hb)]
  simp [runFig, Fig.axisX, Fig.axesAt, hsh]

/-- Witness for C4 at the spec's demo scenario (nb = 2, x-limit [0, 2]). -/
theorem plot1D_mat_heatmap_xlim_witness :
    (demoMem.M.shape = (3, 2) ∧ 1 ≤ 2 ∧
      demoMem.a.length = 3 ∧ demoMem.b.length = 2) ∧
    ((plot1D_mat demoMem Fig.empty).fig.axisX
      (((plot1D_mat demoMem Fig.empty).fig.axesAt 2).xAxisId)).lim =
      some (0, (2 : Val)) :=
  ⟨⟨rfl, by decide, rfl, rfl⟩,
    plot1D_mat_heatmap_xlim demoMem 3 2 rfl (by decide) rfl rfl⟩

/-- C5: after every successful call, the left marginal's (axes 1) x-axis and
y-axis objects are both in inverted orientation, for every input regardless
of the sign or magnitude of the source values. -/
theorem plot1D_mat_left_marginal_inverted (mem : Mem)
    (ha : mem.a.length = mem.M.shape.1) (hb : mem.b.length = mem.M.shape.2) :
    ((plot1D_mat mem Fig.empty).fig.axisX
      (((plot1D_mat mem Fig.empty).fig.axesAt 1).xAxisId)).inverted = true ∧
    ((plot1D_mat mem Fig.empty).fig.axisY
      (((plot1D_mat mem Fig.empty).fig.axesAt 1).yAxisId)).inverted = true := by
  rw [plot1D_mat_run mem ha hb]
  exact ⟨rfl, rfl⟩

/-- Witness for C5 at the spec's demo scenario. -/
theorem plot1D_mat_left_marginal_inverted_witness :
    (demoMem.a.length = demoMem.M.shape.1 ∧
      demoMem.b.length = demoMem.M.shape.2) ∧
    (((plot1D_mat demoMem Fig.empty).fig.axisX
        (((plot1D_mat demoMem Fig.empty).fig.axesAt 1).xAxisId)).inverted = true ∧
      ((plot1D_mat demoMem Fig.empty).fig.axisY
        (((plot1D_mat demoMem Fig.empty).fig.axesAt 1).yAxisId)).inverted = true) :=
  ⟨⟨rfl, rfl⟩, plot1D_mat_left_marginal_inverted demoMem rfl rfl⟩

/-- C6: a successful call partitions the drawing surface into a 3×3 grid and
produces exactly three sub-regions: a top marginal on grid row 0 columns
1–2, a left marginal on grid rows 1–2 column 0, and a center heatmap on grid
rows 1–2 columns 1–2. -/
theorem plot1D_mat_three_regions (mem : Mem)
    (ha : mem.a.length = mem.M.shape.1) (hb : mem.b.length = mem.M.shape.2) :
    (plot1D_mat mem Fig.empty).fig.axesList.length = 3 ∧
    (plot1D_mat mem Fig.empty).fig.axesList.map Axes.pos =
      [⟨3, 3, 0, 0, 1, 2⟩, ⟨3, 3, 1, 2, 0, 0⟩, ⟨3, 3, 1, 2, 1, 2⟩] := by
  rw [plot1D_mat_run mem ha hb]
  exact ⟨rfl, rfl⟩

/-- Witness for C6 at the spec's demo scenario. -/
theorem plot1D_mat_three_regions_witness :
    (demoMem.a.length = demoMem.M.shape.1 ∧
      demoMem.b.length = demoMem.M.shape.2) ∧
    ((plot1D_mat demoMem Fig.empty).fig.axesList.length = 3 ∧
      (plot1D_mat demoMem Fig.empty).fig.axesList.map Axes.pos =
        [⟨3, 3, 0, 0, 1, 2⟩, ⟨3, 3, 1, 2, 0, 0⟩, ⟨3, 3, 1, 2, 1, 2⟩]) :=
  ⟨⟨rfl, rfl⟩, plot1D_mat_three_regions demoMem rfl rfl⟩

/-- C7: `plot1D_mat` performs no shape validation of its own and raises no
error of its own: the error of a call is exactly the backend ValueError that
the mismatched `plot` call produces (`Err.valueError` is constructed only
inside the backend primitive `mplPlot`), surfaced to the caller unmodified —
not caught, wrapped, or recovered from — and no error occurs when the shapes
agree. -/
theorem plot1D_mat_error_passthrough (mem : Mem) (st0 : Fig) :
    (plot1D_mat mem st0).err =
      (if mem.M.shape.2 = mem.b.length then
        if mem.a.length = mem.M.shape.1 then none
        else some (Err.valueError mem.a.length mem.M.shape.1)
      else some (Err.valueError mem.M.shape.2 mem.b.length)) := by
  by_cases hb : mem.M.shape.2 = mem.b.length <;>
    by_cases ha : mem.a.length = mem.M.shape.1 <;>
      simp [plot1D_mat, plot1D_matDims, mplPlot, subplot, resolveAxis,
        yticksEmpty, xticksEmpty, setTitle, invertXAxis, invertYAxis,
        modifyCurrentXAxis, modifyCurrentYAxis, Fig.currentAxes,
        Fig.modifyCurrent, imshow, axisOffCmd, xlimSet, tightLayoutCmd,
        subplotsAdjust, listModify, ha, hb]

/-- C8: a call to `plot1D_mat` does not mutate the source vector, the target
vector, the matrix, or the title — the caller's memory is unchanged — and
the function returns nothing (Python's None), from any backend state. -/
theorem plot1D_mat_frame (mem : Mem) (st0 : Fig) :
    (plot1D_mat mem st0).mem = mem ∧
    (plot1D_mat mem st0).ret = PyNone.mk := by
  by_cases hb : mem.M.shape.2 = mem.b.length <;>
    by_cases ha : mem.a.length = mem.M.shape.1 <;>
      simp [plot1D_mat, plot1D_matDims, mplPlot, subplot, resolveAxis,
        yticksEmpty, xticksEmpty, setTitle, invertXAxis, invertYAxis,
        modifyCurrentXAxis, modifyCurrentYAxis, Fig.currentAxes,
        Fig.modifyCurrent, imshow, axisOffCmd, xlimSet, tightLayoutCmd,
        subplotsAdjust, listModify, ha, hb]

/-- C9: after every successful call, the center heatmap (axes 2) holds the
same y-axis object as the left marginal (axes 1), and that shared object is
in inverted orientation — the inversion performed on the left marginal
before the heatmap was created — so matrix row 0 renders at the top of the
heatmap. -/
theorem plot1D_mat_heatmap_y_inverted (mem : Mem)
    (ha : mem.a.length = mem.M.shape.1) (hb : mem.b.length = mem.M.shape.2) :
    ((plot1D_mat mem Fig.empty).fig.axesAt 2).yAxisId =
      ((plot1D_mat mem Fig.empty).fig.axesAt 1).yAxisId ∧
    ((plot1D_mat mem Fig.empty).fig.axisY
      (((plot1D_mat mem Fig.empty).fig.axesAt 2).yAxisId)).inverted = true := by
  rw [plot1D_mat_run mem ha hb]
  exact ⟨rfl, rfl⟩

/-- Witness for C9 at the spec's demo scenario. -/
theorem plot1D_mat_heatmap_y_inverted_witness :
    (demoMem.a.length = demoMem.M.shape.1 ∧
      demoMem.b.length = demoMem.M.shape.2) ∧
    (((plot1D_mat demoMem Fig.empty).fig.axesAt 2).yAxisId =
        ((plot1D_mat demoMem Fig.empty).fig.axesAt 1).yAxisId ∧
      ((plot1D_mat demoMem Fig.empty).fig.axisY
        (((plot1D_mat demoMem Fig.empty).fig.axesAt 2).yAxisId)).inverted = true) :=
  ⟨⟨rfl, rfl⟩, plot1D_mat_heatmap_y_inverted demoMem rfl rfl⟩

/-- C10: after every successful call with a matrix of nb columns, the top
marginal (axes 0) holds the same x-axis object as the center heatmap
(axes 2), and that shared object's declared limit equals exactly [0, nb],
even though the target curve's x data is `arange nb` and so only spans
0..nb-1. -/
theorem plot1D_mat_top_marginal_xlim (mem : Mem) (na nb : Nat)
    (hsh : mem.M.shape = (na, nb))
    (ha : mem.a.length = na) (hb : mem.b.length = nb) :
    ((plot1D_mat mem Fig.empty).fig.axesAt 0).xAxisId =
      ((plot1D_mat mem Fig.empty).fig.axesAt 2).xAxisId ∧
    ((plot1D_mat mem Fig.empty).fig.axisX
      (((plot1D_mat mem Fig.empty).fig.axesAt 0).xAxisId)).lim =
      some (0, (nb : Val)) ∧
    ((plot1D_mat mem Fig.empty).fig.axesAt 0).plots.map PlotCmd.xs =
      [arange nb] := by
  rw [plot1D_mat_run mem (by rw [hsh]; exact ha) (by rw [hsh]; exact hb)]
  refine ⟨rfl, ?_, ?_⟩ <;> simp [runFig, Fig.axisX, Fig.axesAt, hsh]

/-- Witness for C10 at the spec's demo scenario (nb = 2). -/
theorem plot1D_mat_top_marginal_xlim_witness :
    (demoMem.M.shape = (3, 2) ∧
      demoMem.a.length = 3 ∧ demoMem.b.length = 2) ∧
    (((plot1D_mat demoMem Fig.empty).fig.axesAt 0).xAxisId =
        ((plot1D_mat demoMem Fig.empty).fig.axesAt 2).xAxisId ∧
      ((plot1D_mat demoMem Fig.empty).fig.axisX
        (((plot1D_mat demoMem Fig.empty).fig.axesAt 0).xAxisId)).lim =
        some (0, (2 : Val)) ∧
      ((plot1D_mat demoMem Fig.empty).fig.axesAt 0).plots.map PlotCmd.xs =
        [arange 2]) :=
  ⟨⟨rfl, rfl, rfl⟩, plot1D_mat_top_marginal_xlim demoMem 3 2 rfl rfl rfl⟩

end PlotOneDMat
